import Mathlib

/-!
Verification of the channel/playlist monitoring and ingestion pipeline of the
tubextend repository (backend/firebase/functions), against its natural-language
specification.

The Python sources are shallowly embedded as Lean functions:

* `agents/channel_monitor.py` — `ChannelMonitorAgent` and its helpers
  (`_should_process_video`, `_process_videos`, `_process_videos_batch`,
  `_process_new_videos`, `_process_channel_collection`, `_check_rate_limit`,
  `_fetch_new_videos_from_channel`, `run`);
* `utils/api_wrappers.py` — `YouTubeAPI.fetch_channel_videos`;
* `utils/rss_fetcher.py` — `YouTubeRSSFetcher.fetch_channel_videos`
  and `parse_feed_entry`;
* `utils/database.py` — `Database.bulk_insert_source_videos`;
* the pydantic models in `models/`.

Interactions with the external record store and the YouTube backends are
modelled by oracle functions (one per database/API method used), passed in
explicitly; every observable side effect (store calls, sleeps, appended jobs,
checkpoint updates) is reified into result records so that temporal claims
become statements about these traces.  Python `datetime` values are modelled
as a wall-clock integer plus an optional timezone offset (`none` = naive),
matching the normalisation performed by the code.  Loops that are `while`
loops in Python are given explicit fuel, with the top-level entry points
supplying provably sufficient fuel, so that all definitions evaluate by
`decide`/`rfl`.
-/

namespace Tubextend

/-- Python `datetime`: a wall-clock instant in abstract integer units plus an
optional UTC offset (`tz = none` models a naive datetime, `tz = some o` an
aware one with offset `o`). `replace(tzinfo=timezone.utc)` corresponds to
setting `tz := some 0` while keeping `wall`. -/
structure PyDatetime where
  wall : Int
  tz : Option Int
  deriving DecidableEq, Repr

/-- The absolute instant an aware datetime denotes (Python compares aware
datetimes by wall-clock minus offset); a naive datetime that the code has
normalised with `replace(tzinfo=timezone.utc)` keeps its wall clock, which is
exactly `wall - 0`. -/
def PyDatetime.instant (d : PyDatetime) : Int :=
  d.wall - d.tz.getD 0

/-- `datetime.replace(tzinfo=timezone.utc)` applied when the value is naive:
the branch `if x.tzinfo is None: x = x.replace(tzinfo=timezone.utc)` of
`_should_process_video`. -/
def PyDatetime.forceUtc (d : PyDatetime) : PyDatetime :=
  match d.tz with
  | none => { d with tz := some 0 }
  | some _ => d

/-- `models/video_metadata.py` — `VideoMetadata`. `url` is kept as a plain
optional string; `channel_id` is required by the pydantic model but the
monitor code defensively treats a falsy (empty) value as missing. -/
structure VideoMetadata where
  youtube_video_id : String
  title : Option String := none
  description : Option String := none
  url : Option String := none
  channel_id : String
  uploaded_at : Option PyDatetime := none
  created_at : PyDatetime := ⟨0, none⟩
  deriving DecidableEq, Repr

/-- A JSON-like value as stored in the job configuration dictionaries
(`processing_options` holds a list of strings, a string and a free-form
preferences map; preference values are modelled as strings since the Engine
treats them as opaque). -/
inductive PValue where
  | str (s : String)
  | strList (l : List String)
  | dict (d : List (String × String))
  deriving DecidableEq, Repr

/-- `models/source_info.py` — `SourceType`. -/
inductive SourceType where
  | channel_collection
  | playlist
  deriving DecidableEq, Repr

/-- `models/source_info.py` — `SourceInfo`. UUIDs are modelled as strings
(`str(source.id)` is then the identity). `preferences` is the free-form
pass-through map. -/
structure SourceInfo where
  id : String
  user_id : String
  source_type : SourceType
  name : String
  youtube_playlist_id : Option String := none
  preferences : List (String × String) := []
  last_processed_at : Option PyDatetime := none
  created_at : PyDatetime := ⟨0, none⟩
  deriving DecidableEq, Repr

/-- `models/user_info.py` — the fields of `UserInfo` the monitor reads. -/
structure UserInfo where
  id : String
  email : String := ""
  display_name : Option String := none
  deriving DecidableEq, Repr

/-- `models/channel_info.py` — `ChannelInfo`. -/
structure ChannelInfo where
  youtube_channel_id : String
  title : String := ""
  description : String := ""
  channel_url : String := ""
  deriving DecidableEq, Repr

/-- `models/source_channel_info.py` — `SourceChannelInfo`. -/
structure SourceChannelInfo where
  source_id : String
  youtube_channel_id : String
  deriving DecidableEq, Repr

/-- `models/source_video_info.py` — `SourceVideoInfo`. -/
structure SourceVideoInfo where
  source_id : String
  youtube_video_id : String
  processed_at : Option PyDatetime := none
  deriving DecidableEq, Repr

/-- `models/generation_job.py` — `JobStatus`. -/
inductive JobStatus where
  | queued
  | processing
  | completed
  | failed
  deriving DecidableEq, Repr

/-- `models/generation_job.py` — `JobConfig`: two free-form dictionaries. -/
structure JobConfig where
  model_parameters : List (String × PValue) := []
  processing_options : List (String × PValue) := []
  deriving DecidableEq, Repr

/-- `models/generation_job.py` — `GenerationJob`. -/
structure GenerationJob where
  id : String
  user_id : String
  source_id : Option String := none
  status : JobStatus
  config : JobConfig := {}
  error_message : Option String := none
  created_at : PyDatetime := ⟨0, none⟩
  updated_at : PyDatetime := ⟨0, none⟩
  started_at : Option PyDatetime := none
  finished_at : Option PyDatetime := none
  deriving DecidableEq, Repr

/-- Python `str(x)` for an `Optional[uuid.UUID]` field: `str(None)` is the
string `"None"`.  Used by the defensive source-id comparison in
`_process_new_videos`. -/
def strOptId (x : Option String) : String :=
  match x with
  | none => "None"
  | some s => s

/-- `ChannelMonitorAgent._should_process_video` (channel_monitor.py 347-379):
exclude a video without an upload date; include everything when the source was
never processed; otherwise include iff the (naive-as-UTC normalised) upload
time is strictly later than the (naive-as-UTC normalised) checkpoint. -/
def should_process_video (video : VideoMetadata) (source : SourceInfo) : Bool :=
  match video.uploaded_at with
  | none => false
  | some uploadedAt =>
    let video_upload_time := uploadedAt.forceUtc
    match source.last_processed_at with
    | none => true
    | some lpa =>
      let last_processed := lpa.forceUtc
      video_upload_time.instant > last_processed.instant

/-- A Python exception as observed by the monitor: only its message matters
(`'quota exceeded' in str(e).lower()` is the quota test). -/
structure PyErr where
  msg : String
  deriving DecidableEq, Repr

/-- The quota test `'quota exceeded' in str(e).lower()`: the lowered message
contains the substring exactly when splitting on it yields at least two
pieces. -/
def is_quota_error (e : PyErr) : Bool :=
  decide (2 ≤ (String.splitOn (String.toLower e.msg) ("quota exceeded")).length)

/-- Record-store and provider calls made by
`ChannelMonitorAgent._process_videos`, as oracles. -/
structure VideoStore where
  get_channel : String → Option ChannelInfo
  fetch_channel_info : String → Option ChannelInfo
  get_video : String → Option VideoMetadata
  insert_video : VideoMetadata → Option VideoMetadata

/-- Observable outcome of `_process_videos`. -/
structure ProcessVideosResult where
  upserted_channels : List ChannelInfo
  processed : List VideoMetadata
  deriving DecidableEq, Repr

/-- The final loop of `_process_videos` (channel_monitor.py 181-200): walk the
batch, skip ids already processed in this batch, reuse a stored video when the
catalog has one, otherwise insert it; a failed insert drops the video. -/
def process_videos_dedup (db : VideoStore) :
    List VideoMetadata → List String → List VideoMetadata → List VideoMetadata
  | [], _, acc => acc
  | v :: rest, ids, acc =>
    if ids.contains v.youtube_video_id then
      process_videos_dedup db rest ids acc
    else
      match db.get_video v.youtube_video_id with
      | none =>
        match db.insert_video v with
        | some inserted =>
          process_videos_dedup db rest (ids ++ [v.youtube_video_id]) (acc ++ [inserted])
        | none => process_videos_dedup db rest ids acc
      | some stored =>
        process_videos_dedup db rest (ids ++ [v.youtube_video_id]) (acc ++ [stored])

/-- `ChannelMonitorAgent._process_videos` (channel_monitor.py 152-200):
resolve and upsert channels missing from the catalog
(`bulk_insert_channels`), then merge the batch into the catalog
(create-if-absent, reuse-if-present, dedup by video id within the batch).
The middle `for` loop of the source only logs missing channels and
`continue`s, so it has no observable effect. -/
def process_videos (db : VideoStore) (videos : List VideoMetadata) : ProcessVideosResult :=
  let unique_channel_ids := (videos.map (fun v => v.channel_id)).eraseDups
  let channels_to_upsert := unique_channel_ids.filter (fun cid => (db.get_channel cid).isNone)
  let new_channels := channels_to_upsert.filterMap db.fetch_channel_info
  { upserted_channels := new_channels
    processed := process_videos_dedup db videos [] [] }

/-- `self.batch_size = 50` (channel_monitor.py 26). -/
def batch_size : Nat := 50

/-- `self.max_retries = 3` (channel_monitor.py 27). -/
def max_retries : Nat := 3

/-- `self.rate_limit = 10000` (channel_monitor.py 28). -/
def rate_limit : Nat := 10000

/-- Observable trace of `_process_videos_batch`: the accumulated processed
videos, every `_process_videos` call made (its argument list), the sleeps
performed (seconds), and the exceptions caught. -/
structure BatchAcc where
  processed : List VideoMetadata := []
  calls : List (List VideoMetadata) := []
  sleeps : List Nat := []
  failures : List PyErr := []
  deriving DecidableEq, Repr

/-- The `while videos and retry_count < self.max_retries` loop of
`_process_videos_batch` (channel_monitor.py 250-274).  `pv` is the
`_process_videos` call, indexed by how many such calls were made before (so a
retry may observe a different store state); `fuel` bounds the iteration count
(the top-level wrapper supplies provably sufficient fuel). -/
def process_videos_batch_go
    (pv : Nat → List VideoMetadata → Except PyErr (List VideoMetadata)) :
    Nat → List VideoMetadata → Nat → List String → BatchAcc → BatchAcc
  | 0, _, _, _, acc => acc
  | fuel + 1, videos, retry, processed_ids, acc =>
    if videos.isEmpty then acc
    else if max_retries ≤ retry then acc
    else
      let current_batch :=
        (videos.take batch_size).filter
          (fun v => !(processed_ids.contains v.youtube_video_id))
      if current_batch.isEmpty then
        process_videos_batch_go pv fuel (videos.drop batch_size) retry processed_ids acc
      else
        match pv acc.calls.length current_batch with
        | .ok processed =>
          process_videos_batch_go pv fuel (videos.drop batch_size) 0
            (processed_ids ++ processed.map (fun v => v.youtube_video_id))
            { acc with
              processed := acc.processed ++ processed
              calls := acc.calls ++ [current_batch] }
        | .error e =>
          process_videos_batch_go pv fuel videos (retry + 1) processed_ids
            { acc with
              calls := acc.calls ++ [current_batch]
              failures := acc.failures ++ [e]
              sleeps := acc.sleeps ++ (if is_quota_error e then [60] else []) }

/-- Fuel sufficient for the batch loop: between two advances of `videos` at
most `max_retries` failing iterations can occur before the loop exits. -/
def batch_fuel (videos : List VideoMetadata) : Nat :=
  (videos.length + 1) * (max_retries + 1)

/-- `ChannelMonitorAgent._process_videos_batch` (channel_monitor.py 237-275):
drop videos with a missing/empty `channel_id`, then run the batched retry
loop. -/
def process_videos_batch
    (pv : Nat → List VideoMetadata → Except PyErr (List VideoMetadata))
    (videos : List VideoMetadata) : BatchAcc :=
  let videos2 := videos.filter (fun v => v.channel_id != "")
  process_videos_batch_go pv (batch_fuel videos2) videos2 0 [] {}

/-- `Database.bulk_insert_source_videos` (database.py 702-711): one upsert of
the whole list; on an exception it logs and returns `[]`.  The second
component records the per-video `insert_source_video` calls the operation
makes — the source makes none. -/
def bulk_insert_source_videos
    (upsert : List SourceVideoInfo → Option (List SourceVideoInfo))
    (source_videos : List SourceVideoInfo) :
    List SourceVideoInfo × List SourceVideoInfo :=
  match upsert source_videos with
  | some rows => (rows, [])
  | none => ([], [])

/-- Oracles and clock needed by `_process_new_videos`.  `pv` stands for
`_process_videos` (whose results come from the record store), `upsert_links`
for the store upsert inside `bulk_insert_source_videos`, `insert_job` for
`insert_generation_job` (`none` = failure), `job_id` for the `uuid4` default,
`now_job`/`now_checkpoint` for the two `datetime.now(timezone.utc)` calls. -/
structure MonitorEnv where
  pv : Nat → List VideoMetadata → Except PyErr (List VideoMetadata)
  upsert_links : List SourceVideoInfo → Option (List SourceVideoInfo)
  insert_job : GenerationJob → Option GenerationJob
  job_id : String
  now_job : PyDatetime
  now_checkpoint : PyDatetime

/-- Observable outcome of one `_process_new_videos` call: the filtered video
list, the batch trace, every store call (bulk link upserts, per-video link
inserts, job inserts, source updates), the jobs appended to the run's output
list, and the returned value. -/
structure NewVideosResult where
  filtered : List VideoMetadata := []
  batch : BatchAcc := {}
  bulk_link_calls : List (List SourceVideoInfo) := []
  single_link_calls : List SourceVideoInfo := []
  insert_job_calls : List GenerationJob := []
  update_source_calls : List (String × PyDatetime) := []
  jobs_appended : List GenerationJob := []
  result : Option GenerationJob := none
  deriving Repr

/-- `ChannelMonitorAgent._process_new_videos` (channel_monitor.py 277-345):
filter by the inclusion policy; stop if nothing qualifies; batch-process the
rest; bulk-link the processed videos to the source; build and insert exactly
one `QUEUED` job whose `processing_options` carry the processed video ids, the
stringified source id and the verbatim preferences; verify the persisted
source id and only then append the job and advance `last_processed_at`. -/
def process_new_videos (env : MonitorEnv) (user : UserInfo) (source : SourceInfo)
    (new_videos : List VideoMetadata) : NewVideosResult :=
  let videos_to_process := new_videos.filter (fun v => should_process_video v source)
  if videos_to_process.isEmpty then
    { filtered := videos_to_process }
  else
    let batch_res := process_videos_batch env.pv videos_to_process
    let processed_videos := batch_res.processed
    let source_videos :=
      processed_videos.map (fun v => (⟨source.id, v.youtube_video_id, none⟩ : SourceVideoInfo))
    let link_res := bulk_insert_source_videos env.upsert_links source_videos
    let job : GenerationJob :=
      { id := env.job_id
        user_id := user.id
        source_id := some source.id
        status := JobStatus.queued
        config :=
          { processing_options :=
              [("video_ids", PValue.strList (processed_videos.map (fun v => v.youtube_video_id))),
               ("source_id", PValue.str source.id),
               ("preferences", PValue.dict source.preferences)] }
        created_at := env.now_job }
    let base : NewVideosResult :=
      { filtered := videos_to_process
        batch := batch_res
        bulk_link_calls := [source_videos]
        single_link_calls := link_res.2
        insert_job_calls := [job] }
    match env.insert_job job with
    | some inserted =>
      if strOptId inserted.source_id != source.id then
        { base with result := none }
      else
        { base with
          jobs_appended := [inserted]
          update_source_calls := [(source.id, env.now_checkpoint)]
          result := some inserted }
    | none => { base with result := none }

/-- Primary-backend interactions of the engine, for the rate-limit claims:
a consult of the rolling quota counter, or a video-listing call. -/
inductive EngineEvent where
  | rate_check
  | list_call (channel_id : String)
  deriving DecidableEq, Repr

/-- The fetch loop of `_process_channel_collection` (channel_monitor.py
121-131): call `youtube_api.fetch_channel_videos` for every member channel,
extending the accumulator on success and `continue`ing on an exception; the
progress-counter updates are logging only.  Also returns the trace of
primary-backend events (one listing call per channel, no rate check). -/
def collect_channel_videos (fetch : String → Except PyErr (List VideoMetadata)) :
    List SourceChannelInfo → List VideoMetadata × List EngineEvent
  | [] => ([], [])
  | ch :: rest =>
    let tail := collect_channel_videos fetch rest
    match fetch ch.youtube_channel_id with
    | .ok vids => (vids ++ tail.1, EngineEvent.list_call ch.youtube_channel_id :: tail.2)
    | .error _ => (tail.1, EngineEvent.list_call ch.youtube_channel_id :: tail.2)

/-- Observable outcome of `_process_channel_collection`. -/
structure CollectionResult where
  all_new_videos : List VideoMetadata := []
  events : List EngineEvent := []
  new_videos_result : Option NewVideosResult := none
  deriving Repr

/-- `ChannelMonitorAgent._process_channel_collection` (channel_monitor.py
113-134): re-resolve the member channels (modelled as the same list the
caller resolved), return early when empty, accumulate each channel's fetch,
and hand a non-empty accumulation to `_process_new_videos`. -/
def process_channel_collection (env : MonitorEnv)
    (fetch : String → Except PyErr (List VideoMetadata))
    (source_channels : List SourceChannelInfo)
    (user : UserInfo) (source : SourceInfo) : CollectionResult :=
  if source_channels.isEmpty then {}
  else
    let acc := collect_channel_videos fetch source_channels
    if acc.1.isEmpty then
      { all_new_videos := acc.1, events := acc.2 }
    else
      { all_new_videos := acc.1
        events := acc.2
        new_videos_result := some (process_new_videos env user source acc.1) }

/-- `ChannelMonitorAgent._process_playlist` (channel_monitor.py 136-150):
skip without a playlist id; fetch once; a non-empty result goes to
`_process_new_videos`; exceptions are caught and logged. -/
def process_playlist (env : MonitorEnv)
    (fetch_playlist : String → Except PyErr (List VideoMetadata))
    (user : UserInfo) (source : SourceInfo) :
    Option NewVideosResult × List EngineEvent :=
  match source.youtube_playlist_id with
  | none => (none, [])
  | some pid =>
    match fetch_playlist pid with
    | .error _ => (none, [EngineEvent.list_call pid])
    | .ok vids =>
      if vids.isEmpty then (none, [EngineEvent.list_call pid])
      else (some (process_new_videos env user source vids), [EngineEvent.list_call pid])

/-- Rate-limiter state of the agent: `_request_count` and
`_last_request_time` (channel_monitor.py 29-30). -/
structure RateState where
  request_count : Nat
  last_request_time : Int
  deriving DecidableEq, Repr

/-- `day_seconds = 24 * 60 * 60` (channel_monitor.py 43). -/
def day_seconds : Int := 24 * 60 * 60

/-- `ChannelMonitorAgent._check_rate_limit` (channel_monitor.py 40-58): reset
the counter when a day has passed; when the counter has reached 90% of the
ceiling (`count >= 10000 * 0.9`, rendered exactly as `10 * count ≥ 9 *
rate_limit`), sleep until the rolling day window resets and restart the
counter; finally count this request.  Returns the new state and the sleeps
performed. -/
def check_rate_limit (st : RateState) (current_time : Int) (time_after_sleep : Int) :
    RateState × List Int :=
  let st1 :=
    if day_seconds < current_time - st.last_request_time then
      ({ request_count := 0, last_request_time := current_time } : RateState)
    else st
  if 9 * rate_limit ≤ 10 * st1.request_count then
    let wait_time := day_seconds - (current_time - st1.last_request_time)
    (({ request_count := 0 + 1, last_request_time := time_after_sleep } : RateState), [wait_time])
  else
    ({ st1 with request_count := st1.request_count + 1 }, [])

/-- Observable outcome of `_fetch_new_videos_from_channel`. -/
structure FetchChannelResult where
  state : RateState
  events : List EngineEvent
  sleeps : List Int
  videos : List VideoMetadata
  deriving Repr

/-- `ChannelMonitorAgent._fetch_new_videos_from_channel` (channel_monitor.py
202-218): the only code path that consults `_check_rate_limit` before a
listing call; on a quota-flavoured exception it sleeps 60 seconds and returns
`[]`, on any other exception it returns `[]`.  This helper is defined by the
agent but never invoked by `run`'s source-processing paths. -/
def fetch_new_videos_from_channel (st : RateState) (current_time time_after_sleep : Int)
    (fetch : String → Except PyErr (List VideoMetadata))
    (channel : ChannelInfo) : FetchChannelResult :=
  let r := check_rate_limit st current_time time_after_sleep
  match fetch channel.youtube_channel_id with
  | .ok vids =>
    { state := r.1
      events := [EngineEvent.rate_check, EngineEvent.list_call channel.youtube_channel_id]
      sleeps := r.2
      videos := vids }
  | .error e =>
    { state := r.1
      events := [EngineEvent.rate_check, EngineEvent.list_call channel.youtube_channel_id]
      sleeps := r.2 ++ (if is_quota_error e then [60] else [])
      videos := [] }

/-- Oracles for a full `run`: the record-store reads, the two provider
listing calls, and the `MonitorEnv` pieces (`job_id_for` models the per-job
`uuid4`, keyed by source id).  `get_user` distinguishes a
`RecordNotFoundError` (`Except.error`) from a falsy result (`ok none`). -/
structure RunEnv where
  get_user : String → Except Unit (Option UserInfo)
  get_sources_by_user : String → List SourceInfo
  get_source_channels : String → List SourceChannelInfo
  fetch_channel_videos : String → Except PyErr (List VideoMetadata)
  fetch_playlist_videos : String → Except PyErr (List VideoMetadata)
  pv : Nat → List VideoMetadata → Except PyErr (List VideoMetadata)
  upsert_links : List SourceVideoInfo → Option (List SourceVideoInfo)
  insert_job : GenerationJob → Option GenerationJob
  job_id_for : String → String
  now_job : PyDatetime
  now_checkpoint : PyDatetime

/-- The `MonitorEnv` a given source's processing sees. -/
def RunEnv.monitorEnv (env : RunEnv) (source_id : String) : MonitorEnv :=
  { pv := env.pv
    upsert_links := env.upsert_links
    insert_job := env.insert_job
    job_id := env.job_id_for source_id
    now_job := env.now_job
    now_checkpoint := env.now_checkpoint }

/-- Observable outcome of `run`: the returned jobs, the per-source
`_process_new_videos` outcomes (in source order), and the primary-backend
event trace. -/
structure RunResult where
  jobs : List GenerationJob := []
  effects : List NewVideosResult := []
  events : List EngineEvent := []
  deriving Repr

/-- Pointwise concatenation of run outcomes (an iteration of the
`for source in sources` loop followed by the rest of the loop). -/
def RunResult.append (a b : RunResult) : RunResult :=
  { jobs := a.jobs ++ b.jobs
    effects := a.effects ++ b.effects
    events := a.events ++ b.events }

/-- The run contribution of one channel-collection outcome: the appended jobs
(when `_process_new_videos` ran) and the backend events. -/
def CollectionResult.toRunResult (cr : CollectionResult) : RunResult :=
  match cr.new_videos_result with
  | some nr => { jobs := nr.jobs_appended, effects := [nr], events := cr.events }
  | none => { jobs := [], effects := [], events := cr.events }

/-- The run contribution of one playlist outcome. -/
def playlist_run_result (pr : Option NewVideosResult × List EngineEvent) : RunResult :=
  match pr.1 with
  | some nr => { jobs := nr.jobs_appended, effects := [nr], events := pr.2 }
  | none => { jobs := [], effects := [], events := pr.2 }

/-- One iteration of the `for source in sources` loop of `run`
(channel_monitor.py 88-109): empty channel collections and playlists without
a playlist id are skipped (`continue`); otherwise the matching processor runs
and its appended jobs land in the run's output list. -/
def run_source_step (env : RunEnv) (user : UserInfo) (source : SourceInfo) : RunResult :=
  match source.source_type with
  | SourceType.channel_collection =>
    if (env.get_source_channels source.id).isEmpty then {}
    else
      (process_channel_collection (env.monitorEnv source.id)
        env.fetch_channel_videos (env.get_source_channels source.id) user source).toRunResult
  | SourceType.playlist =>
    match source.youtube_playlist_id with
    | none => {}
    | some _ =>
      playlist_run_result
        (process_playlist (env.monitorEnv source.id) env.fetch_playlist_videos user source)

/-- The whole `for source in sources` loop of `run`. -/
def run_sources (env : RunEnv) (user : UserInfo) : List SourceInfo → RunResult
  | [] => {}
  | source :: rest =>
    (run_source_step env user source).append (run_sources env user rest)

/-- `ChannelMonitorAgent.run` (channel_monitor.py 60-111): a missing user
(not-found error or falsy result) and an empty source list return an empty
job list; otherwise the sources are processed in order. -/
def run (env : RunEnv) (user_id : String) : RunResult :=
  match env.get_user user_id with
  | .error _ => {}
  | .ok none => {}
  | .ok (some user) =>
    let sources := env.get_sources_by_user user_id
    if sources.isEmpty then {} else run_sources env user sources

/-- One item of a `youtube.search().list` response page, with
`snippet.publishedAt` already parsed: `datetime.fromisoformat(...[:-1])`
yields a naive datetime, recorded by its wall clock. -/
structure PageItem where
  videoId : Option String := none
  title : String := ""
  description : String := ""
  published_wall : Int := 0
  deriving DecidableEq, Repr

/-- Outcome of one `request.execute` in `YouTubeAPI.fetch_channel_videos`:
a response page, or an `HttpError` with its status. -/
inductive PageResult where
  | ok (items : List PageItem) (next_page_token : Option String)
  | http_error (status : Nat)
  deriving Repr

/-- Building a `VideoMetadata` from a page item (api_wrappers.py 121-133):
items without a `videoId` are skipped, the upload timestamp is naive. -/
def page_video (channel_id : String) (item : PageItem) : Option VideoMetadata :=
  match item.videoId with
  | none => none
  | some vid =>
    some { youtube_video_id := vid
           title := some item.title
           description := some item.description
           channel_id := channel_id
           url := some ("https://www.youtube.com/watch?v=" ++ vid)
           uploaded_at := some ⟨item.published_wall, none⟩ }

/-- The pagination loop of `YouTubeAPI.fetch_channel_videos`
(api_wrappers.py 103-140): on an `HttpError` with status 403 (quota) `break`
and return the videos accumulated so far; any other `HttpError` is re-raised
and caught by the outer handler, which returns `[]`; otherwise accumulate the
page and continue while a `nextPageToken` is present.  `pages` is indexed by
the request count; `none` means the fuel ran out before the loop ended. -/
def fetch_channel_videos_go (pages : Nat → PageResult) (channel_id : String) :
    Nat → Nat → List VideoMetadata → Option (List VideoMetadata)
  | 0, _, _ => none
  | fuel + 1, i, acc =>
    match pages i with
    | .http_error status => if status = 403 then some acc else some []
    | .ok items tok =>
      let acc2 := acc ++ items.filterMap (page_video channel_id)
      match tok with
      | none => some acc2
      | some _ => fetch_channel_videos_go pages channel_id fuel (i + 1) acc2

/-- `YouTubeAPI.fetch_channel_videos` (api_wrappers.py 86-144), given the
page oracle.  No quota fallback to any other backend appears in this code
path. -/
def fetch_channel_videos_api (pages : Nat → PageResult) (channel_id : String)
    (fuel : Nat) : Option (List VideoMetadata) :=
  fetch_channel_videos_go pages channel_id fuel 0 []

/-- A parsed RSS feed entry as `feedparser` exposes it to
`YouTubeRSSFetcher.parse_feed_entry`; `published` carries a `%z`-parsed
(timezone-aware) datetime when present. -/
structure FeedEntry where
  yt_videoid : Option String := none
  yt_channelid : Option String := none
  title : Option String := none
  link : Option String := none
  published : Option PyDatetime := none
  deriving DecidableEq, Repr

/-- `YouTubeRSSFetcher.parse_feed_entry` (rss_fetcher.py 108-135): entries
without a video id or channel id yield nothing; a missing publish date falls
back to the current UTC time. -/
def parse_feed_entry (now : PyDatetime) (e : FeedEntry) : Option VideoMetadata :=
  match e.yt_videoid with
  | none => none
  | some vid =>
    match e.yt_channelid with
    | none => none
    | some cid =>
      let uploaded_at := match e.published with
        | some p => p
        | none => now
      some { youtube_video_id := vid
             title := e.title
             channel_id := cid
             url := e.link
             uploaded_at := some uploaded_at
             created_at := now }

/-- `YouTubeRSSFetcher.fetch_channel_videos` (rss_fetcher.py 71-88): an
unavailable feed yields `[]`; otherwise parse at most `max_videos` entries
and stamp each with the requested channel id. -/
def rss_fetch_channel_videos (feed : Option (List FeedEntry)) (channel_id : String)
    (now : PyDatetime) (max_videos : Nat := 15) : List VideoMetadata :=
  match feed with
  | none => []
  | some entries =>
    (entries.take max_videos).filterMap
      (fun e => (parse_feed_entry now e).map (fun v => { v with channel_id := channel_id }))

/-! ### Concrete fixtures used by witnesses and counterexamples -/

/-- A record store whose lookups all miss and whose video inserts all fail
(every `Database` method catches its own exceptions and returns a falsy
value, so a store outage realises exactly this oracle). -/
def db_none : VideoStore :=
  { get_channel := fun _ => none
    fetch_channel_info := fun _ => none
    get_video := fun _ => none
    insert_video := fun _ => none }

/-- `_process_videos` against a given store, as the batch loop's oracle. -/
def pv_store (db : VideoStore) : Nat → List VideoMetadata → Except PyErr (List VideoMetadata) :=
  fun _ batch => Except.ok (process_videos db batch).processed

/-- An oracle for `_process_videos` that echoes its batch (every video found
already stored unchanged). -/
def pv_echo : Nat → List VideoMetadata → Except PyErr (List VideoMetadata) :=
  fun _ batch => Except.ok batch

/-- A test user. -/
def user0 : UserInfo := { id := "u1" }

/-- A never-processed channel-collection source. -/
def source0 : SourceInfo :=
  { id := "s1"
    user_id := "u1"
    source_type := SourceType.channel_collection
    name := "S"
    preferences := [("tts_voice", "alloy")] }

/-- A video uploaded at instant 50 (aware). -/
def video1 : VideoMetadata :=
  { youtube_video_id := "v1", channel_id := "c1", uploaded_at := some ⟨50, some 0⟩ }

/-- A second video uploaded at instant 60 (aware). -/
def video2 : VideoMetadata :=
  { youtube_video_id := "v2", channel_id := "c1", uploaded_at := some ⟨60, some 0⟩ }

/-- A monitor environment whose store echoes everything and never fails. -/
def env_ok : MonitorEnv :=
  { pv := pv_echo
    upsert_links := fun l => some l
    insert_job := fun j => some j
    job_id := "job-1"
    now_job := ⟨100, some 0⟩
    now_checkpoint := ⟨101, some 0⟩ }

/-- A monitor environment over the all-failing store `db_none`: the inclusion
filter can pass videos that batch processing then drops (their inserts fail),
while job insertion itself succeeds. -/
def env_drop : MonitorEnv :=
  { env_ok with pv := pv_store db_none }

/-- `n` distinct videos `"0" … "(n-1)"`, all on channel `"c"`, all uploaded
at aware instant 50. -/
def mk_videos (n : Nat) : List VideoMetadata :=
  (List.range n).map fun i =>
    { youtube_video_id := toString i
      channel_id := "c"
      uploaded_at := some ⟨50, some 0⟩ }

/-- A `_process_videos` oracle that throws a non-quota exception whenever the
batch contains video `"0"` and succeeds otherwise: the store misbehaves for
the first batch only. -/
def pv_fail_first : Nat → List VideoMetadata → Except PyErr (List VideoMetadata) :=
  fun _ batch =>
    if batch.any (fun v => v.youtube_video_id == "0") then Except.error ⟨"boom"⟩
    else Except.ok batch

/-- 51 distinct videos: enough for two batches of the batch loop. -/
def vids51 : List VideoMetadata := mk_videos 51

/-- A `_process_videos` oracle that always throws a quota-flavoured
exception. -/
def pv_quota_fail : Nat → List VideoMetadata → Except PyErr (List VideoMetadata) :=
  fun _ _ => Except.error ⟨"YouTube API quota exceeded for this project"⟩

/-- A page oracle whose very first request reports quota exhaustion. -/
def pages_quota : Nat → PageResult := fun _ => PageResult.http_error 403

/-- A feed entry the fallback backend would return. -/
def feed_entry1 : FeedEntry :=
  { yt_videoid := some ("rv1"), yt_channelid := some ("cX"), published := some ⟨10, some 0⟩ }

/-- A run environment with one channel-collection source `s1` owning one
channel `c1` whose fetch succeeds with `video1`; all store operations
succeed. -/
def run_env1 : RunEnv :=
  { get_user := fun _ => Except.ok (some user0)
    get_sources_by_user := fun _ => [source0]
    get_source_channels := fun _ => [⟨"s1", "c1"⟩]
    fetch_channel_videos := fun _ => Except.ok [video1]
    fetch_playlist_videos := fun _ => Except.ok []
    pv := pv_echo
    upsert_links := fun l => some l
    insert_job := fun j => some j
    job_id_for := fun _ => "job-1"
    now_job := ⟨100, some 0⟩
    now_checkpoint := ⟨101, some 0⟩ }

/-- A search-result item carried by the first response page. -/
def page_item1 : PageItem := { videoId := some ("pv1"), published_wall := 42 }

/-- A page oracle whose first page succeeds with one item and a continuation
token, and whose second request reports quota exhaustion. -/
def pages_mixed : Nat → PageResult := fun i =>
  if i = 0 then PageResult.ok [page_item1] (some ("t")) else PageResult.http_error 403

/-- The job `run_env1`'s run inserts (the store echoes it unchanged). -/
def job_run1 : GenerationJob :=
  { id := "job-1"
    user_id := "u1"
    source_id := some ("s1")
    status := JobStatus.queued
    config :=
      { processing_options :=
          [("video_ids", PValue.strList ["v1"]),
           ("source_id", PValue.str ("s1")),
           ("preferences", PValue.dict [("tts_voice", "alloy")])] }
    created_at := ⟨100, some 0⟩ }

/-- Three member channels of source `s1`. -/
def chans3 : List SourceChannelInfo := [⟨"s1", "c1"⟩, ⟨"s1", "c2"⟩, ⟨"s1", "c3"⟩]

/-- A fetch oracle for which channel `c2` raises while `c1` and `c3`
succeed. -/
def fetch3 : String → Except PyErr (List VideoMetadata) := fun cid =>
  if cid == "c2" then Except.error ⟨"network down"⟩
  else if cid == "c1" then Except.ok [video1]
  else Except.ok [video2]

/-! ### Helper lemmas -/

theorem forceUtc_instant (d : PyDatetime) : d.forceUtc.instant = d.instant := by
  cases h : d.tz <;> simp [PyDatetime.forceUtc, PyDatetime.instant, h]

/-! ### C1 — the inclusion decision -/

/-- C1: `_should_process_video` excludes a video with no upload timestamp;
with no checkpoint it includes unconditionally; otherwise it includes iff the
upload instant (naive treated as UTC) is strictly later than the checkpoint
instant, so equal instants are excluded. -/
theorem claim_C1 (video : VideoMetadata) (source : SourceInfo) :
    (video.uploaded_at = none → should_process_video video source = false) ∧
    (∀ u, video.uploaded_at = some u → source.last_processed_at = none →
      should_process_video video source = true) ∧
    (∀ u lp, video.uploaded_at = some u → source.last_processed_at = some lp →
      (should_process_video video source = true ↔ lp.instant < u.instant)) ∧
    (∀ u lp, video.uploaded_at = some u → source.last_processed_at = some lp →
      u.instant = lp.instant → should_process_video video source = false) := by
  refine ⟨fun h => ?_, fun u hu hl => ?_, fun u lp hu hl => ?_, fun u lp hu hl heq => ?_⟩
  · simp [should_process_video, h]
  · simp [should_process_video, hu, hl]
  · simp [should_process_video, hu, hl, forceUtc_instant, gt_iff_lt]
  · simp [should_process_video, hu, hl, forceUtc_instant, heq]

/-- Witness for C1 at concrete inputs: upload instant 50 against checkpoint
instant 40 is included; against checkpoint 50 it is excluded. -/
theorem claim_C1_witness :
    should_process_video video1 { source0 with last_processed_at := some ⟨40, some 0⟩ } = true ∧
    should_process_video video1 { source0 with last_processed_at := some ⟨50, some 0⟩ } = false := by
  constructor
  · exact ((claim_C1 video1 { source0 with last_processed_at := some ⟨40, some 0⟩ }).2.2.1
      ⟨50, some 0⟩ ⟨40, some 0⟩ rfl rfl).mpr (by decide)
  · exact (claim_C1 video1 { source0 with last_processed_at := some ⟨50, some 0⟩ }).2.2.2
      ⟨50, some 0⟩ ⟨50, some 0⟩ rfl rfl (by decide)

/-! ### C2 — checkpoint discipline -/

/-- C2: the source checkpoint (`update_source` with `last_processed_at`) is
written only when the single job insert of the execution succeeded and the
persisted source id matched, and then the appended job is exactly that
inserted job; insert failure, id mismatch, or an empty filtered set leave the
checkpoint untouched; the written value is the current time, hence under a
monotone clock the checkpoint never decreases. -/
theorem claim_C2 (env : MonitorEnv) (user : UserInfo) (source : SourceInfo)
    (new_videos : List VideoMetadata) (r : NewVideosResult)
    (hr : r = process_new_videos env user source new_videos) :
    (∀ sid t, (sid, t) ∈ r.update_source_calls →
      sid = source.id ∧ t = env.now_checkpoint ∧
      ∃ job inserted, r.insert_job_calls = [job] ∧ job.status = JobStatus.queued ∧
        env.insert_job job = some inserted ∧ strOptId inserted.source_id = source.id ∧
        r.jobs_appended = [inserted]) ∧
    ((new_videos.filter fun v => should_process_video v source).isEmpty = true →
      r.update_source_calls = []) ∧
    (∀ job, job ∈ r.insert_job_calls → env.insert_job job = none →
      r.update_source_calls = []) ∧
    (∀ job inserted, job ∈ r.insert_job_calls → env.insert_job job = some inserted →
      strOptId inserted.source_id ≠ source.id → r.update_source_calls = []) ∧
    (∀ lp, source.last_processed_at = some lp → lp.instant ≤ env.now_checkpoint.instant →
      ∀ sid t, (sid, t) ∈ r.update_source_calls → lp.instant ≤ t.instant) := by
  subst hr
  unfold process_new_videos
  by_cases hE : (new_videos.filter fun v => should_process_video v source).isEmpty = true
  · simp [hE]
  · simp only [hE, if_false, Bool.false_eq_true]
    split
    case _ inserted hins =>
      by_cases hmis : (strOptId inserted.source_id != source.id) = true
      · simp_all [strOptId]
      · simp only [hmis, if_false, Bool.false_eq_true]
        simp only [bne_iff_ne, ne_eq, not_not] at hmis
        refine ⟨?_, ?_, ?_, ?_, ?_⟩
        · intro sid t hmem
          simp only [List.mem_singleton, Prod.mk.injEq] at hmem
          exact ⟨hmem.1, hmem.2, _, inserted, rfl, rfl, hins, hmis, rfl⟩
        · intro h; simp_all
        · intro job hjob hnone
          simp only [List.mem_singleton] at hjob
          rw [hjob] at hnone; rw [hnone] at hins; cases hins
        · intro job ins hjob hsome hneq
          simp only [List.mem_singleton] at hjob
          rw [hjob] at hsome; rw [hsome] at hins
          cases hins; exact absurd hmis hneq
        · intro lp hlp hle sid t hmem
          simp only [List.mem_singleton, Prod.mk.injEq] at hmem
          rw [hmem.2]; exact hle
    case _ hins =>
      refine ⟨?_, ?_, ?_, ?_, ?_⟩ <;> simp_all

/-- Witness for C2: with the echoing environment and one qualifying video,
the only checkpoint write carries the current time, and its preconditions are
discharged at the concrete input. -/
theorem claim_C2_witness :
    ∃ job inserted,
      (process_new_videos env_ok user0 source0 [video1]).insert_job_calls = [job] ∧
      job.status = JobStatus.queued ∧
      env_ok.insert_job job = some inserted ∧
      strOptId inserted.source_id = source0.id ∧
      (process_new_videos env_ok user0 source0 [video1]).jobs_appended = [inserted] := by
  have h := claim_C2 env_ok user0 source0 [video1]
    (process_new_videos env_ok user0 source0 [video1]) rfl
  have hmem : (source0.id, env_ok.now_checkpoint) ∈
      (process_new_videos env_ok user0 source0 [video1]).update_source_calls := by decide
  exact ((h.1 source0.id env_ok.now_checkpoint hmem).2.2)

/-! ### C4 — when a job is created -/

/-- Counterexample to C4 as stated: with the all-failing store `db_none`
(every video insert fails, a behaviour `Database.insert_video` exhibits on
any store error), one video passes the inclusion filter but batch processing
drops it, so the set of videos surviving filter *and* batch processing is
empty — yet a generation job is still inserted (with an empty video list). -/
theorem claim_C4_cex :
    (process_new_videos env_drop user0 source0 [video1]).batch.processed = [] ∧
    (process_new_videos env_drop user0 source0 [video1]).insert_job_calls ≠ [] ∧
    (process_new_videos env_drop user0 source0 [video1]).result.isSome = true := by
  decide

/-- C4 amended: a job insert is attempted exactly once iff at least one video
survives the *inclusion filter* (batch processing is not consulted for the
decision); when the filtered set is empty nothing is inserted or linked and
the checkpoint is untouched. -/
theorem claim_C4 (env : MonitorEnv) (user : UserInfo) (source : SourceInfo)
    (new_videos : List VideoMetadata) (r : NewVideosResult)
    (hr : r = process_new_videos env user source new_videos) :
    ((new_videos.filter fun v => should_process_video v source).isEmpty = true →
      r.insert_job_calls = [] ∧ r.bulk_link_calls = [] ∧
      r.update_source_calls = [] ∧ r.result = none) ∧
    ((new_videos.filter fun v => should_process_video v source).isEmpty = false →
      r.insert_job_calls.length = 1) := by
  subst hr
  unfold process_new_videos
  by_cases hE : (new_videos.filter fun v => should_process_video v source).isEmpty = true
  · simp [hE]
  · simp only [hE, if_false, Bool.false_eq_true]
    constructor
    · intro h; simp_all
    · intro _
      split
      case _ inserted hins =>
        by_cases hmis : (strOptId inserted.source_id != source0.id) = true <;> split <;> simp
      case _ hins => simp

/-- Witness for C4: an empty input filters to nothing and inserts nothing; a
qualifying video leads to exactly one insert attempt. -/
theorem claim_C4_witness :
    (process_new_videos env_ok user0 source0 []).insert_job_calls = [] ∧
    (process_new_videos env_ok user0 source0 [video1]).insert_job_calls.length = 1 := by
  constructor
  · exact ((claim_C4 env_ok user0 source0 [] _ rfl).1 (by decide)).1
  · exact (claim_C4 env_ok user0 source0 [video1] _ rfl).2 (by decide)

/-! ### C3 — behaviour on quota exhaustion -/

/-- Counterexample to C3 as stated: when the very first primary request
signals quota exhaustion, `YouTubeAPI.fetch_channel_videos` returns the empty
accumulated list, whereas the feed-based backend would have returned a video
for the same channel — the primary result does not equal the fallback's
result, because no fallback happens. -/
theorem claim_C3_cex :
    fetch_channel_videos_api pages_quota ("c1") 5 = some [] ∧
    rss_fetch_channel_videos (some [feed_entry1]) ("c1") ⟨99, some 0⟩ ≠ [] := by
  decide

/-- C3 amended: on an `HttpError` the primary call raises nothing to the
caller; a 403 (quota) on a later page stops pagination and returns exactly
the videos accumulated from the earlier pages, a non-403 error returns `[]`
— in neither case is any feed-based backend consulted (this code path has no
reference to one). -/
theorem claim_C3 (pages : Nat → PageResult) (cid : String) (items : List PageItem)
    (tok : String) (fuel s : Nat) :
    (pages 0 = PageResult.http_error s →
      fetch_channel_videos_api pages cid (fuel + 1) = some []) ∧
    (pages 0 = PageResult.ok items (some tok) → pages 1 = PageResult.http_error 403 →
      fetch_channel_videos_api pages cid (fuel + 2) =
        some (items.filterMap (page_video cid))) ∧
    (pages 0 = PageResult.ok items (some tok) → pages 1 = PageResult.http_error s →
      s ≠ 403 → fetch_channel_videos_api pages cid (fuel + 2) = some []) := by
  refine ⟨fun h0 => ?_, fun h0 h1 => ?_, fun h0 h1 hs => ?_⟩
  · simp only [fetch_channel_videos_api, fetch_channel_videos_go, h0]
    split <;> rfl
  · simp [fetch_channel_videos_api, fetch_channel_videos_go, h0, h1]
  · simp [fetch_channel_videos_api, fetch_channel_videos_go, h0, h1, hs]

/-- Witness for C3 at a concrete oracle: one successful page followed by a
quota signal yields exactly the first page's videos. -/
theorem claim_C3_witness :
    fetch_channel_videos_api pages_mixed ("c1") 7 =
      some ([page_item1].filterMap (page_video ("c1"))) := by
  exact (claim_C3 pages_mixed ("c1") [page_item1] ("t") 5 403).2.1 rfl rfl

/-! ### Batch-loop invariants (shared helpers) -/

/-- Every `_process_videos` call issued by the batch loop receives at most
`batch_size` videos, all with a non-empty channel id (assuming the loop's
video list only holds such videos, which the top-level filter establishes). -/
theorem batch_go_calls_inv
    (pv : Nat → List VideoMetadata → Except PyErr (List VideoMetadata)) :
    ∀ (fuel : Nat) (videos : List VideoMetadata) (retry : Nat) (ids : List String)
      (acc : BatchAcc),
      (∀ v ∈ videos, v.channel_id ≠ "") →
      (∀ b ∈ acc.calls, b.length ≤ batch_size ∧ ∀ v ∈ b, v.channel_id ≠ "") →
      ∀ b ∈ (process_videos_batch_go pv fuel videos retry ids acc).calls,
        b.length ≤ batch_size ∧ ∀ v ∈ b, v.channel_id ≠ "" := by
  intro fuel
  induction fuel with
  | zero => intro videos retry ids acc _ hacc; simpa [process_videos_batch_go] using hacc
  | succ n ih =>
    intro videos retry ids acc hvid hacc
    rw [process_videos_batch_go]
    by_cases he : videos.isEmpty
    · simpa [he] using hacc
    · simp only [he, if_false, Bool.false_eq_true]
      by_cases hret : max_retries ≤ retry
      · simpa [hret] using hacc
      · simp only [hret, if_false]
        have hcbsub : ∀ v ∈ (videos.take batch_size).filter
            (fun v => !(ids.contains v.youtube_video_id)), v.channel_id ≠ "" := by
          intro v hv
          exact hvid v ((List.take_sublist _ _).subset (List.mem_of_mem_filter hv))
        have hcblen : ((videos.take batch_size).filter
            (fun v => !(ids.contains v.youtube_video_id))).length ≤ batch_size := by
          calc ((videos.take batch_size).filter _).length
              ≤ (videos.take batch_size).length := List.length_filter_le _ _
            _ ≤ batch_size := List.length_take_le _ _
        have hdrop : ∀ v ∈ videos.drop batch_size, v.channel_id ≠ "" := by
          intro v hv; exact hvid v ((List.drop_sublist _ _).subset hv)
        by_cases hcb : ((videos.take batch_size).filter
            (fun v => !(ids.contains v.youtube_video_id))).isEmpty
        · simp only [hcb, if_true]
          exact ih _ _ _ _ hdrop hacc
        · simp only [hcb, if_false, Bool.false_eq_true]
          split
          case _ processed hok =>
            refine ih _ _ _ _ hdrop ?_
            intro b hb
            rcases List.mem_append.mp hb with h | h
            · exact hacc b h
            · rcases List.mem_singleton.mp h with rfl
              exact ⟨hcblen, hcbsub⟩
          case _ e herr =>
            refine ih _ _ _ _ hvid ?_
            intro b hb
            rcases List.mem_append.mp hb with h | h
            · exact hacc b h
            · rcases List.mem_singleton.mp h with rfl
              exact ⟨hcblen, hcbsub⟩

/-- The sleeps of the batch loop are exactly one 60-second sleep per caught
quota-flavoured exception (none for other exceptions). -/
theorem batch_go_sleeps
    (pv : Nat → List VideoMetadata → Except PyErr (List VideoMetadata)) :
    ∀ (fuel : Nat) (videos : List VideoMetadata) (retry : Nat) (ids : List String)
      (acc : BatchAcc),
      ∃ f, (process_videos_batch_go pv fuel videos retry ids acc).failures =
          acc.failures ++ f ∧
        (process_videos_batch_go pv fuel videos retry ids acc).sleeps =
          acc.sleeps ++ (f.filter is_quota_error).map (fun _ => 60) := by
  intro fuel
  induction fuel with
  | zero => intro videos retry ids acc; exact ⟨[], by simp [process_videos_batch_go]⟩
  | succ n ih =>
    intro videos retry ids acc
    rw [process_videos_batch_go]
    by_cases he : videos.isEmpty
    · exact ⟨[], by simp [he]⟩
    · simp only [he, if_false, Bool.false_eq_true]
      by_cases hret : max_retries ≤ retry
      · exact ⟨[], by simp [hret]⟩
      · simp only [hret, if_false]
        by_cases hcb : ((videos.take batch_size).filter
            (fun v => !(ids.contains v.youtube_video_id))).isEmpty
        · simp only [hcb, if_true]; exact ih _ _ _ _
        · simp only [hcb, if_false, Bool.false_eq_true]
          split
          case _ processed hok => exact ih _ _ _ _
          case _ e herr =>
            obtain ⟨f, hf, hs⟩ := ih videos (retry + 1) ids
              { acc with
                calls := acc.calls ++ [(videos.take batch_size).filter
                  (fun v => !(ids.contains v.youtube_video_id))]
                failures := acc.failures ++ [e]
                sleeps := acc.sleeps ++ (if is_quota_error e then [60] else []) }
            refine ⟨e :: f, ?_, ?_⟩
            · simpa using hf
            · rw [hs]
              by_cases hq : is_quota_error e <;> simp [hq]

/-- With an always-failing `_process_videos` and a non-empty first batch the
loop performs `min fuel (max_retries - retry)` further calls, processes
nothing more, and stops — dropping the still-unprocessed remainder of the
video list. -/
theorem batch_go_allfail
    (pv : Nat → List VideoMetadata → Except PyErr (List VideoMetadata))
    (hfail : ∀ i b, ∃ e, pv i b = Except.error e) :
    ∀ (fuel : Nat) (videos : List VideoMetadata) (retry : Nat) (ids : List String)
      (acc : BatchAcc),
      ((videos.take batch_size).filter
        (fun v => !(ids.contains v.youtube_video_id))) ≠ [] →
      (process_videos_batch_go pv fuel videos retry ids acc).processed = acc.processed ∧
      (process_videos_batch_go pv fuel videos retry ids acc).calls.length =
        acc.calls.length + min fuel (max_retries - retry) := by
  intro fuel
  induction fuel with
  | zero => intro videos retry ids acc _; simp [process_videos_batch_go]
  | succ n ih =>
    intro videos retry ids acc hcb
    have hvne : ¬ videos.isEmpty := by
      intro h
      rw [List.isEmpty_iff] at h
      subst h
      simp at hcb
    rw [process_videos_batch_go]
    simp only [hvne, if_false, Bool.false_eq_true]
    by_cases hret : max_retries ≤ retry
    · have : max_retries - retry = 0 := Nat.sub_eq_zero_of_le hret
      simp [hret, this]
    · simp only [hret, if_false]
      rw [if_neg (by simpa [List.isEmpty_iff] using hcb)]
      obtain ⟨e, he⟩ := hfail acc.calls.length ((videos.take batch_size).filter
        (fun v => !(ids.contains v.youtube_video_id)))
      rw [he]
      obtain ⟨h1, h2⟩ := ih videos (retry + 1) ids
        { acc with
          calls := acc.calls ++ [(videos.take batch_size).filter
            (fun v => !(ids.contains v.youtube_video_id))]
          failures := acc.failures ++ [e]
          sleeps := acc.sleeps ++ (if is_quota_error e then [60] else []) } hcb
      refine ⟨by simpa using h1, ?_⟩
      rw [h2]
      simp only [List.length_append, List.length_singleton]
      have hlt : retry < max_retries := Nat.lt_of_not_le hret
      omega

/-! ### C7 — batch processing, retries and drop semantics -/

/-- Counterexample to C7 as stated: 51 videos form two batches; the store
call fails (non-quota) whenever the batch contains video `"0"`, i.e. only for
the first batch, and would succeed for the second batch — yet after the first
batch exhausts its retries the loop exits entirely and the second batch's
videos are dropped too: nothing is processed, instead of "processing
continues with the next batch". -/
theorem claim_C7_cex :
    (process_videos_batch pv_fail_first vids51).processed = [] ∧
    vids51.drop batch_size ≠ [] ∧
    pv_fail_first 3 (vids51.drop batch_size) = Except.ok (vids51.drop batch_size) := by
  refine ⟨by decide, by decide, by rfl⟩

/-- C7 amended: batches never exceed 50 videos; the loop sleeps 60 seconds
exactly once per caught quota-flavoured failure (and not for other
failures); and when the store call keeps failing, the loop stops after
`max_retries` (3) consecutive attempts with nothing processed — dropping the
failing batch *and* every remaining batch (the run then continues with the
next channel/source, not with the next batch). -/
theorem claim_C7 (pv : Nat → List VideoMetadata → Except PyErr (List VideoMetadata))
    (videos : List VideoMetadata) (r : BatchAcc)
    (hr : r = process_videos_batch pv videos) :
    (∀ b ∈ r.calls, b.length ≤ batch_size) ∧
    (r.sleeps = (r.failures.filter is_quota_error).map (fun _ => 60)) ∧
    ((∀ i b, ∃ e, pv i b = Except.error e) →
      videos.filter (fun v => v.channel_id != "") ≠ [] →
      r.processed = [] ∧ r.calls.length = max_retries) := by
  subst hr
  refine ⟨?_, ?_, ?_⟩
  · intro b hb
    exact (batch_go_calls_inv pv _ _ 0 [] {}
      (by intro v hv; simpa using (List.mem_filter.mp hv).2) (by simp) b hb).1
  · obtain ⟨f, hf, hs⟩ := batch_go_sleeps pv
      (batch_fuel (videos.filter (fun v => v.channel_id != "")))
      (videos.filter (fun v => v.channel_id != "")) 0 [] {}
    simp only [process_videos_batch]
    rw [hs, hf]
    simp
  · intro hfail hne
    have hcb : (((videos.filter (fun v => v.channel_id != "")).take batch_size).filter
        (fun v => !(List.contains ([] : List String) v.youtube_video_id))) ≠ [] := by
      simp only [List.contains_nil, Bool.not_false, List.filter_true]
      intro h
      rcases List.take_eq_nil_iff.mp h with h0 | hall
      · exact absurd h0 (by decide)
      · exact hne hall
    obtain ⟨h1, h2⟩ := batch_go_allfail pv hfail
      (batch_fuel (videos.filter (fun v => v.channel_id != "")))
      (videos.filter (fun v => v.channel_id != "")) 0 [] {} hcb
    refine ⟨by simpa [process_videos_batch] using h1, ?_⟩
    simp only [process_videos_batch]
    rw [h2]
    simp only [batch_fuel, max_retries, Nat.sub_zero]
    simp
    omega

/-- Witness for C7 with an always-quota-failing store on one video: nothing
is processed and exactly three attempts are made. -/
theorem claim_C7_witness :
    (process_videos_batch pv_quota_fail [video1]).processed = [] ∧
    (process_videos_batch pv_quota_fail [video1]).calls.length = max_retries := by
  exact (claim_C7 pv_quota_fail [video1] _ rfl).2.2
    (fun i b => ⟨⟨"YouTube API quota exceeded for this project"⟩, rfl⟩) (by decide)

/-! ### C8 — source↔video link persistence -/

/-- Counterexample to C8 as stated: when the bulk upsert fails on a two-link
batch, `Database.bulk_insert_source_videos` returns the empty list and issues
no per-video insert at all — the whole batch of links is lost; there is no
fallback to linking one at a time. -/
theorem claim_C8_cex :
    bulk_insert_source_videos (fun _ => none)
      [⟨"s1", "v1", none⟩, ⟨"s1", "v2", none⟩] = ([], []) ∧
    ([⟨"s1", "v1", none⟩, ⟨"s1", "v2", none⟩] : List SourceVideoInfo) ≠ [] := by
  decide

/-- C8 amended: the engine links the surviving videos with exactly one bulk
upsert (whose argument lists every survivor) and never issues a per-video
link insert; on upsert failure the store helper merely returns `[]`, losing
the whole batch of links. -/
theorem claim_C8 (upsert : List SourceVideoInfo → Option (List SourceVideoInfo))
    (svs rows : List SourceVideoInfo)
    (env : MonitorEnv) (user : UserInfo) (source : SourceInfo)
    (new_videos : List VideoMetadata) (r : NewVideosResult)
    (hr : r = process_new_videos env user source new_videos) :
    (upsert svs = none → bulk_insert_source_videos upsert svs = ([], [])) ∧
    (upsert svs = some rows → bulk_insert_source_videos upsert svs = (rows, [])) ∧
    (r.single_link_calls = []) ∧
    ((new_videos.filter fun v => should_process_video v source).isEmpty = false →
      r.bulk_link_calls = [(process_videos_batch env.pv
        (new_videos.filter fun v => should_process_video v source)).processed.map
          (fun v => (⟨source.id, v.youtube_video_id, none⟩ : SourceVideoInfo))]) := by
  subst hr
  refine ⟨fun h => by simp [bulk_insert_source_videos, h],
          fun h => by simp [bulk_insert_source_videos, h], ?_, ?_⟩
  · unfold process_new_videos
    by_cases hE : (new_videos.filter fun v => should_process_video v source).isEmpty = true
    · simp [hE]
    · simp only [hE, if_false, Bool.false_eq_true]
      split
      case _ inserted hins =>
        split <;> simp [bulk_insert_source_videos]
        <;> rcases h : env.upsert_links ((process_videos_batch env.pv
            (new_videos.filter fun v => should_process_video v source)).processed.map
              (fun v => (⟨source.id, v.youtube_video_id, none⟩ : SourceVideoInfo)))
          with _ | rows2 <;> simp [h]
      case _ hins =>
        simp [bulk_insert_source_videos]
        rcases h : env.upsert_links ((process_videos_batch env.pv
            (new_videos.filter fun v => should_process_video v source)).processed.map
              (fun v => (⟨source.id, v.youtube_video_id, none⟩ : SourceVideoInfo)))
          with _ | rows2 <;> simp [h]
  · intro hE
    unfold process_new_videos
    simp only [hE, if_false, Bool.false_eq_true]
    split
    case _ inserted hins => split <;> simp
    case _ hins => simp

/-- Witness for C8: a failing upsert on one link yields no rows and no
per-video calls; the echoing environment issues no per-video link calls. -/
theorem claim_C8_witness :
    bulk_insert_source_videos (fun _ => none) [⟨"s1", "v1", none⟩] = ([], []) ∧
    (process_new_videos env_ok user0 source0 [video1]).single_link_calls = [] := by
  exact ⟨(claim_C8 (fun _ => none) [⟨"s1", "v1", none⟩] [] env_ok user0 source0
    [video1] _ rfl).1 rfl,
    (claim_C8 (fun _ => none) [⟨"s1", "v1", none⟩] [] env_ok user0 source0
    [video1] _ rfl).2.2.1⟩

/-! ### C9 — rate limiting -/

/-- The channel-collection fetch loop consults the quota counter for none of
its listing calls. -/
theorem collect_no_rate_check (fetch : String → Except PyErr (List VideoMetadata)) :
    ∀ chans : List SourceChannelInfo,
      EngineEvent.rate_check ∉ (collect_channel_videos fetch chans).2 := by
  intro chans
  induction chans with
  | nil => simp [collect_channel_videos]
  | cons ch rest ih =>
    rw [collect_channel_videos]
    cases h : fetch ch.youtube_channel_id <;> simp [h, ih]

/-- Counterexample to C9 as stated: a complete run over one channel-collection
source performs a primary-backend listing call whose trace contains no quota
consult at all — so in particular none happened before the call.  (The only
code path that consults `_check_rate_limit`, `_fetch_new_videos_from_channel`,
is never invoked by `run`.) -/
theorem claim_C9_cex :
    (run run_env1 ("u1")).events = [EngineEvent.list_call ("c1")] ∧
    EngineEvent.rate_check ∉ (run run_env1 ("u1")).events := by
  decide

/-- C9 amended: the agent's rate-limit helper does implement the 90% policy —
once the counter reaches 90% of the 10,000/day ceiling it sleeps exactly the
remainder of the rolling day window and restarts the counter, below the
threshold it just counts — and `_fetch_new_videos_from_channel` consults it
before its listing call; but the channel-collection path actually used by
`run` issues its listing calls without ever consulting the counter. -/
theorem claim_C9 :
    (∀ (st : RateState) (ct tas : Int),
      ¬ day_seconds < ct - st.last_request_time →
      9 * rate_limit ≤ 10 * st.request_count →
      check_rate_limit st ct tas =
        (⟨1, tas⟩, [day_seconds - (ct - st.last_request_time)])) ∧
    (∀ (st : RateState) (ct tas : Int),
      ¬ day_seconds < ct - st.last_request_time →
      10 * st.request_count < 9 * rate_limit →
      check_rate_limit st ct tas =
        (⟨st.request_count + 1, st.last_request_time⟩, [])) ∧
    (∀ (st : RateState) (ct tas : Int)
      (fetch : String → Except PyErr (List VideoMetadata)) (channel : ChannelInfo),
      (fetch_new_videos_from_channel st ct tas fetch channel).events =
        [EngineEvent.rate_check, EngineEvent.list_call channel.youtube_channel_id]) ∧
    (∀ (menv : MonitorEnv) (fetch : String → Except PyErr (List VideoMetadata))
      (chans : List SourceChannelInfo) (user : UserInfo) (source : SourceInfo),
      EngineEvent.rate_check ∉
        (process_channel_collection menv fetch chans user source).events) := by
  refine ⟨?_, ?_, ?_, ?_⟩
  · intro st ct tas hday hq
    simp [check_rate_limit, hday, hq]
  · intro st ct tas hday hq
    simp [check_rate_limit, hday, Nat.not_le.mpr hq]
  · intro st ct tas fetch channel
    cases h : fetch channel.youtube_channel_id <;>
      simp [fetch_new_videos_from_channel, h]
  · intro menv fetch chans user source
    unfold process_channel_collection
    by_cases he : chans.isEmpty = true
    · simp [he]
    · simp only [he, if_false, Bool.false_eq_true]
      split <;> simpa using collect_no_rate_check fetch chans

/-- Witness for C9: a counter at 9,000 of 10,000 with the window opened at
time 0 and the clock at 100 sleeps `day_seconds - 100` and restarts; and the
concrete one-channel collection of the run environment consults the counter
nowhere. -/
theorem claim_C9_witness :
    check_rate_limit ⟨9000, 0⟩ 100 7 = (⟨1, 7⟩, [day_seconds - 100]) ∧
    EngineEvent.rate_check ∉
      (process_channel_collection (run_env1.monitorEnv ("s1"))
        run_env1.fetch_channel_videos [⟨"s1", "c1"⟩] user0 source0).events := by
  exact ⟨claim_C9.1 ⟨9000, 0⟩ 100 7 (by decide) (by decide),
    claim_C9.2.2.2 (run_env1.monitorEnv ("s1")) run_env1.fetch_channel_videos
      [⟨"s1", "c1"⟩] user0 source0⟩

/-! ### Shared structural lemmas about `process_new_videos` -/

/-- When the inclusion filter keeps at least one video, the fields of the
`_process_new_videos` outcome that do not depend on the job-insert result are
fixed: one batch run over the filtered list, one bulk link call carrying every
batch survivor, the store helper's (empty) per-video link calls, and one
insert attempt of the literally constructed job. -/
theorem pnv_stable_fields (env : MonitorEnv) (user : UserInfo) (source : SourceInfo)
    (nv : List VideoMetadata)
    (hE : (nv.filter fun v => should_process_video v source).isEmpty = false) :
    (process_new_videos env user source nv).filtered =
      nv.filter (fun v => should_process_video v source) ∧
    (process_new_videos env user source nv).batch =
      process_videos_batch env.pv (nv.filter fun v => should_process_video v source) ∧
    (process_new_videos env user source nv).bulk_link_calls =
      [(process_videos_batch env.pv
          (nv.filter fun v => should_process_video v source)).processed.map
        (fun v => (⟨source.id, v.youtube_video_id, none⟩ : SourceVideoInfo))] ∧
    (process_new_videos env user source nv).insert_job_calls =
      [{ id := env.job_id
         user_id := user.id
         source_id := some source.id
         status := JobStatus.queued
         config :=
           { processing_options :=
               [("video_ids", PValue.strList ((process_videos_batch env.pv
                   (nv.filter fun v => should_process_video v source)).processed.map
                     (fun v => v.youtube_video_id))),
                ("source_id", PValue.str source.id),
                ("preferences", PValue.dict source.preferences)] }
         created_at := env.now_job }] := by
  unfold process_new_videos
  simp only [hE, if_false, Bool.false_eq_true]
  split
  case _ inserted hins => split <;> exact ⟨rfl, rfl, rfl, rfl⟩
  case _ hins => exact ⟨rfl, rfl, rfl, rfl⟩

/-- Every job appended to the run's output by `_process_new_videos` is the
store's echo of a job the engine constructed and inserted. -/
theorem pnv_jobs_appended (env : MonitorEnv) (user : UserInfo) (source : SourceInfo)
    (nv : List VideoMetadata) (j : GenerationJob)
    (hj : j ∈ (process_new_videos env user source nv).jobs_appended) :
    ∃ job, job ∈ (process_new_videos env user source nv).insert_job_calls ∧
      env.insert_job job = some j := by
  revert hj
  unfold process_new_videos
  by_cases hE : (nv.filter fun v => should_process_video v source).isEmpty = true
  · simp [hE]
  · simp only [hE, if_false, Bool.false_eq_true]
    split
    case _ inserted hins =>
      split
      · simp
      · intro hj
        simp only [List.mem_singleton] at hj
        subst hj
        refine ⟨_, List.mem_singleton.mpr rfl, ?_⟩
        exact hins
    case _ hins => simp

/-! ### C10 — videos without a channel id -/

/-- Under an id-preserving store (every video `_process_videos` returns has
the id of a video of its batch — the store looks rows up by the batch
member's id), every id the batch loop outputs is the id of an input video
with a non-empty channel id. -/
theorem batch_go_processed_ids
    (pv : Nat → List VideoMetadata → Except PyErr (List VideoMetadata))
    (hpv : ∀ i b out, pv i b = Except.ok out →
      ∀ w ∈ out, w.youtube_video_id ∈ b.map (fun x => x.youtube_video_id))
    (univ : List VideoMetadata) :
    ∀ (fuel : Nat) (videos : List VideoMetadata) (retry : Nat) (ids : List String)
      (acc : BatchAcc),
      (∀ v ∈ videos, v ∈ univ) →
      (∀ w ∈ acc.processed,
        w.youtube_video_id ∈ univ.map (fun x => x.youtube_video_id)) →
      ∀ w ∈ (process_videos_batch_go pv fuel videos retry ids acc).processed,
        w.youtube_video_id ∈ univ.map (fun x => x.youtube_video_id) := by
  intro fuel
  induction fuel with
  | zero => intro videos retry ids acc _ hacc; simpa [process_videos_batch_go] using hacc
  | succ n ih =>
    intro videos retry ids acc hsub hacc
    rw [process_videos_batch_go]
    by_cases he : videos.isEmpty
    · simpa [he] using hacc
    · simp only [he, if_false, Bool.false_eq_true]
      by_cases hret : max_retries ≤ retry
      · simpa [hret] using hacc
      · simp only [hret, if_false]
        have hdrop : ∀ v ∈ videos.drop batch_size, v ∈ univ :=
          fun v hv => hsub v ((List.drop_sublist _ _).subset hv)
        by_cases hcb : ((videos.take batch_size).filter
            (fun v => !(ids.contains v.youtube_video_id))).isEmpty
        · simp only [hcb, if_true]
          exact ih _ _ _ _ hdrop hacc
        · simp only [hcb, if_false, Bool.false_eq_true]
          split
          case _ processed hok =>
            refine ih _ _ _ _ hdrop ?_
            intro w hw
            rcases List.mem_append.mp hw with h | h
            · exact hacc w h
            · have hid := hpv _ _ _ hok w h
              rcases List.mem_map.mp hid with ⟨x, hx, hxid⟩
              have hxuniv : x ∈ univ :=
                hsub x ((List.take_sublist _ _).subset (List.mem_of_mem_filter hx))
              exact hxid ▸ List.mem_map.mpr ⟨x, hxuniv, rfl⟩
          case _ e herr =>
            exact ih _ _ _ _ hsub hacc

/-- C10: the batch step drops every video with an empty `channel_id` before
any store interaction — no store call ever receives one — and, under an
id-preserving store, the id of a channel-less input video (not shared with
any channel-bearing input) appears neither among the processed videos, nor in
the bulk link call, nor in the job's `video_ids`. -/
theorem claim_C10 (env : MonitorEnv) (user : UserInfo) (source : SourceInfo)
    (nv : List VideoMetadata)
    (hpv : ∀ i b out, env.pv i b = Except.ok out →
      ∀ w ∈ out, w.youtube_video_id ∈ b.map (fun x => x.youtube_video_id))
    (v : VideoMetadata) (hv : v ∈ nv) (hch : v.channel_id = "")
    (hid : v.youtube_video_id ∉
      (nv.filter (fun w => w.channel_id != "")).map (fun w => w.youtube_video_id))
    (r : NewVideosResult) (hr : r = process_new_videos env user source nv) :
    (∀ b ∈ r.batch.calls, ∀ w ∈ b, w.channel_id ≠ "") ∧
    v.youtube_video_id ∉ r.batch.processed.map (fun w => w.youtube_video_id) ∧
    (∀ l ∈ r.bulk_link_calls,
      v.youtube_video_id ∉ l.map (fun sv => sv.youtube_video_id)) ∧
    (∀ j ∈ r.insert_job_calls, ∀ vl, ("video_ids", PValue.strList vl) ∈
      j.config.processing_options → v.youtube_video_id ∉ vl) := by
  subst hr
  by_cases hE : (nv.filter fun v => should_process_video v source).isEmpty = true
  · unfold process_new_videos
    simp [hE]
  · obtain ⟨hfil, hbatch, hbulk, hjob⟩ := pnv_stable_fields env user source nv
      (Bool.not_eq_true _ ▸ hE)
    have hproc : ∀ w ∈ (process_videos_batch env.pv
        (nv.filter fun x => should_process_video x source)).processed,
        w.youtube_video_id ∈
          (nv.filter (fun w => w.channel_id != "")).map (fun w => w.youtube_video_id) := by
      intro w hw
      have hw2 : w ∈ (process_videos_batch_go env.pv
          (batch_fuel ((nv.filter fun x => should_process_video x source).filter
            (fun x => x.channel_id != "")))
          ((nv.filter fun x => should_process_video x source).filter
            (fun x => x.channel_id != "")) 0 [] {}).processed := by
        simpa only [process_videos_batch] using hw
      refine batch_go_processed_ids env.pv hpv (nv.filter (fun w => w.channel_id != ""))
        (batch_fuel ((nv.filter fun x => should_process_video x source).filter
          (fun x => x.channel_id != "")))
        ((nv.filter fun x => should_process_video x source).filter
          (fun x => x.channel_id != "")) 0 [] {} ?_ (by simp) w hw2
      intro x hx
      have h1 := List.mem_filter.mp hx
      have h2 := List.mem_filter.mp h1.1
      exact List.mem_filter.mpr ⟨h2.1, h1.2⟩
    have hnotproc : v.youtube_video_id ∉ (process_videos_batch env.pv
        (nv.filter fun x => should_process_video x source)).processed.map
          (fun w => w.youtube_video_id) := by
      intro hmem
      rcases List.mem_map.mp hmem with ⟨w, hw, hwid⟩
      exact hid (hwid ▸ hproc w hw)
    refine ⟨?_, ?_, ?_, ?_⟩
    · intro b hb w hw
      rw [hbatch] at hb
      have hb2 : b ∈ (process_videos_batch_go env.pv
          (batch_fuel ((nv.filter fun x => should_process_video x source).filter
            (fun x => x.channel_id != "")))
          ((nv.filter fun x => should_process_video x source).filter
            (fun x => x.channel_id != "")) 0 [] {}).calls := by
        simpa [process_videos_batch] using hb
      exact (batch_go_calls_inv env.pv _ _ 0 [] {}
        (fun x hx => by simpa using (List.mem_filter.mp hx).2) (by simp) b hb2).2 w hw
    · rw [hbatch]; exact hnotproc
    · intro l hl
      rw [hbulk] at hl
      rcases List.mem_singleton.mp hl with rfl
      intro hmem
      rcases List.mem_map.mp hmem with ⟨sv, hsv, hsvid⟩
      rcases List.mem_map.mp hsv with ⟨w, hw, rfl⟩
      exact hnotproc (hsvid ▸ List.mem_map.mpr ⟨w, hw, rfl⟩)
    · intro j hj vl hvl
      rw [hjob] at hj
      rcases List.mem_singleton.mp hj with rfl
      rcases List.mem_cons.mp hvl with h | hvl2
      · have h2 : vl = (process_videos_batch env.pv
            (nv.filter fun x => should_process_video x source)).processed.map
              (fun w => w.youtube_video_id) := by
          have := congrArg Prod.snd h
          simpa using this
        rw [h2]; exact hnotproc
      · rcases List.mem_cons.mp hvl2 with h | hvl3
        · have hfst : False := by simpa using congrArg Prod.fst h
          exact hfst.elim
        · have h := List.mem_singleton.mp hvl3
          have hfst : False := by simpa using congrArg Prod.fst h
          exact hfst.elim

/-- Witness for C10: a video with an empty channel id that passed the
inclusion filter reaches neither the store calls nor the job payload. -/
theorem claim_C10_witness :
    (∀ b ∈ (process_new_videos env_ok user0 source0
        [{ youtube_video_id := "vx", channel_id := "",
           uploaded_at := some ⟨50, some 0⟩ }, video1]).batch.calls,
      ∀ w ∈ b, w.channel_id ≠ "") ∧
    ("vx" : String) ∉ (process_new_videos env_ok user0 source0
        [{ youtube_video_id := "vx", channel_id := "",
           uploaded_at := some ⟨50, some 0⟩ }, video1]).batch.processed.map
      (fun w => w.youtube_video_id) := by
  have h := claim_C10 env_ok user0 source0
    [{ youtube_video_id := "vx", channel_id := "",
       uploaded_at := some ⟨50, some 0⟩ }, video1]
    (by intro i b out hok w hw; cases hok; exact List.mem_map.mpr ⟨w, hw, rfl⟩)
    { youtube_video_id := "vx", channel_id := "", uploaded_at := some ⟨50, some 0⟩ }
    (by decide) (by decide) (by decide) _ rfl
  exact ⟨h.1, h.2.1⟩

/-! ### C5 — job payload shape -/

/-- A non-`none` `_process_channel_collection` outcome is the
`_process_new_videos` outcome on some accumulated video list. -/
theorem pcc_result_provenance (menv : MonitorEnv)
    (fetch : String → Except PyErr (List VideoMetadata))
    (chans : List SourceChannelInfo) (user : UserInfo) (source : SourceInfo)
    (nr : NewVideosResult)
    (h : (process_channel_collection menv fetch chans user source).new_videos_result =
      some nr) :
    ∃ nv, nr = process_new_videos menv user source nv := by
  revert h
  unfold process_channel_collection
  by_cases he : chans.isEmpty = true
  · simp [he]
  · simp only [he, if_false, Bool.false_eq_true]
    by_cases ha : (collect_channel_videos fetch chans).1.isEmpty
    · simp [ha]
    · simp only [ha, if_false, Bool.false_eq_true]
      intro h
      exact ⟨(collect_channel_videos fetch chans).1, by
        cases h; rfl⟩

/-- A non-`none` `_process_playlist` outcome is the `_process_new_videos`
outcome on the fetched playlist videos. -/
theorem ppl_result_provenance (menv : MonitorEnv)
    (fp : String → Except PyErr (List VideoMetadata))
    (user : UserInfo) (source : SourceInfo) (nr : NewVideosResult)
    (h : (process_playlist menv fp user source).1 = some nr) :
    ∃ nv, nr = process_new_videos menv user source nv := by
  revert h
  unfold process_playlist
  cases hpid : source.youtube_playlist_id with
  | none => simp
  | some pid =>
    cases hf : fp pid with
    | error e => simp [hf]
    | ok vids =>
      by_cases hv : vids.isEmpty = true
      · simp [hf, hv]
      · simp only [hf, hv, if_false, Bool.false_eq_true]
        intro h
        exact ⟨vids, by cases h; rfl⟩

/-- Jobs of a collection contribution come from its (provenanced) inner
outcome. -/
theorem toRunResult_jobs (cr : CollectionResult) (j : GenerationJob)
    (hj : j ∈ cr.toRunResult.jobs) :
    ∃ nr, cr.new_videos_result = some nr ∧ j ∈ nr.jobs_appended := by
  rcases cr with ⟨anv, ev, onr⟩
  cases onr with
  | none => simp [CollectionResult.toRunResult] at hj
  | some nr => exact ⟨nr, rfl, by simpa [CollectionResult.toRunResult] using hj⟩

/-- Jobs of a playlist contribution come from its (provenanced) inner
outcome. -/
theorem playlist_run_result_jobs (pr : Option NewVideosResult × List EngineEvent)
    (j : GenerationJob) (hj : j ∈ (playlist_run_result pr).jobs) :
    ∃ nr, pr.1 = some nr ∧ j ∈ nr.jobs_appended := by
  rcases pr with ⟨onr, ev⟩
  cases onr with
  | none => simp [playlist_run_result] at hj
  | some nr => exact ⟨nr, rfl, by simpa [playlist_run_result] using hj⟩

/-- Every job contributed by one loop iteration was appended by that source's
`_process_new_videos` on some fetched list. -/
theorem run_source_step_jobs (env : RunEnv) (user : UserInfo) (source : SourceInfo)
    (j : GenerationJob) (hj : j ∈ (run_source_step env user source).jobs) :
    ∃ nv, j ∈ (process_new_videos (env.monitorEnv source.id) user source nv).jobs_appended := by
  revert hj
  unfold run_source_step
  cases hst : source.source_type with
  | channel_collection =>
    by_cases hch : (env.get_source_channels source.id).isEmpty = true
    · simp [hch, RunResult.jobs]
    · simp only [hch, if_false, Bool.false_eq_true]
      intro hj
      obtain ⟨nr, hres, hmem⟩ := toRunResult_jobs _ j hj
      obtain ⟨nv, rfl⟩ := pcc_result_provenance _ _ _ _ _ _ hres
      exact ⟨nv, hmem⟩
  | playlist =>
    cases hpid : source.youtube_playlist_id with
    | none => simp
    | some pid =>
      intro hj
      obtain ⟨nr, hres, hmem⟩ := playlist_run_result_jobs _ j hj
      obtain ⟨nv, rfl⟩ := ppl_result_provenance _ _ _ _ _ hres
      exact ⟨nv, hmem⟩

/-- Every job returned by the source loop was appended by some source's
`_process_new_videos`. -/
theorem run_sources_jobs_provenance (env : RunEnv) (user : UserInfo) :
    ∀ (sources : List SourceInfo) (j : GenerationJob),
      j ∈ (run_sources env user sources).jobs →
      ∃ source, source ∈ sources ∧ ∃ nv,
        j ∈ (process_new_videos (env.monitorEnv source.id) user source nv).jobs_appended := by
  intro sources
  induction sources with
  | nil => intro j hj; simp [run_sources] at hj
  | cons source rest ih =>
    intro j hj
    rw [run_sources] at hj
    rcases List.mem_append.mp hj with hj | hj
    · obtain ⟨nv, hnv⟩ := run_source_step_jobs env user source j hj
      exact ⟨source, List.mem_cons_self _ _, nv, hnv⟩
    · obtain ⟨s, hs, hnv⟩ := ih j hj
      exact ⟨s, List.mem_cons_of_mem _ hs, hnv⟩

/-- Every job returned by `run` was appended, for some source of the run's
user, by `_process_new_videos`. -/
theorem run_jobs_provenance (env : RunEnv) (user_id : String) (j : GenerationJob)
    (hj : j ∈ (run env user_id).jobs) :
    ∃ user, env.get_user user_id = Except.ok (some user) ∧
      ∃ source, source ∈ env.get_sources_by_user user_id ∧ ∃ nv,
        j ∈ (process_new_videos (env.monitorEnv source.id) user source nv).jobs_appended := by
  revert hj
  unfold run
  cases hu : env.get_user user_id with
  | error e => simp
  | ok ou =>
    cases ou with
    | none => simp
    | some user =>
      by_cases hs : (env.get_sources_by_user user_id).isEmpty = true
      · simp [hs]
      · simp only [hs, if_false, Bool.false_eq_true]
        intro hj
        obtain ⟨source, hsrc, nv, hnv⟩ :=
          run_sources_jobs_provenance env user (env.get_sources_by_user user_id) j hj
        exact ⟨user, rfl, source, hsrc, nv, hnv⟩

/-- C5: every job the engine inserts is `QUEUED` and its configuration's
`processing_options` is exactly the three-entry map `video_ids` (the ids of
the batch survivors), `source_id` (the stringified source id) and
`preferences` (the source's map, verbatim); consequently, when the store
echoes inserts, every job produced by `run(user_id)` carries exactly this
recoverable shape for one of the user's sources. -/
theorem claim_C5 :
    (∀ (menv : MonitorEnv) (user : UserInfo) (source : SourceInfo)
      (nv : List VideoMetadata),
      ∀ j ∈ (process_new_videos menv user source nv).insert_job_calls,
        j.status = JobStatus.queued ∧ j.user_id = user.id ∧
        j.source_id = some source.id ∧
        j.config.processing_options =
          [("video_ids", PValue.strList
              ((process_new_videos menv user source nv).batch.processed.map
                (fun v => v.youtube_video_id))),
           ("source_id", PValue.str source.id),
           ("preferences", PValue.dict source.preferences)]) ∧
    (∀ (env : RunEnv) (user_id : String),
      (∀ jb r, env.insert_job jb = some r → r = jb) →
      ∀ j ∈ (run env user_id).jobs,
        j.status = JobStatus.queued ∧
        ∃ source, source ∈ env.get_sources_by_user user_id ∧ ∃ vids,
          j.source_id = some source.id ∧
          j.config.processing_options =
            [("video_ids", PValue.strList vids),
             ("source_id", PValue.str source.id),
             ("preferences", PValue.dict source.preferences)]) := by
  have hshape : ∀ (menv : MonitorEnv) (user : UserInfo) (source : SourceInfo)
      (nv : List VideoMetadata),
      ∀ j ∈ (process_new_videos menv user source nv).insert_job_calls,
        j.status = JobStatus.queued ∧ j.user_id = user.id ∧
        j.source_id = some source.id ∧
        j.config.processing_options =
          [("video_ids", PValue.strList
              ((process_new_videos menv user source nv).batch.processed.map
                (fun v => v.youtube_video_id))),
           ("source_id", PValue.str source.id),
           ("preferences", PValue.dict source.preferences)] := by
    intro menv user source nv j hj
    by_cases hE : (nv.filter fun v => should_process_video v source).isEmpty = true
    · rw [show (process_new_videos menv user source nv).insert_job_calls = [] by
        unfold process_new_videos; simp [hE]] at hj
      exact absurd hj (List.not_mem_nil _)
    · obtain ⟨hfil, hbatch, hbulk, hjob⟩ := pnv_stable_fields menv user source nv
        (Bool.not_eq_true _ ▸ hE)
      rw [hjob] at hj
      rcases List.mem_singleton.mp hj with rfl
      refine ⟨rfl, rfl, rfl, ?_⟩
      rw [hbatch]
  refine ⟨hshape, ?_⟩
  intro env user_id hecho j hj
  obtain ⟨user, hu, source, hsrc, nv, hnv⟩ := run_jobs_provenance env user_id j hj
  obtain ⟨job, hjob, hins⟩ := pnv_jobs_appended _ user source nv j hnv
  have hje : j = job := hecho job j hins
  subst hje
  obtain ⟨h1, h2, h3, h4⟩ := hshape _ user source nv j hjob
  exact ⟨h1, source, hsrc, _, h3, h4⟩

/-- Witness for C5: the concrete run of `run_env1` produces `job_run1`, whose
shape the theorem certifies. -/
theorem claim_C5_witness :
    job_run1.status = JobStatus.queued ∧
    ∃ source, source ∈ run_env1.get_sources_by_user ("u1") ∧ ∃ vids,
      job_run1.source_id = some source.id ∧
      job_run1.config.processing_options =
        [("video_ids", PValue.strList vids),
         ("source_id", PValue.str source.id),
         ("preferences", PValue.dict source.preferences)] := by
  exact claim_C5.2 run_env1 ("u1") (fun jb r h => by cases h; rfl) job_run1 (by decide)

/-! ### C6 — per-channel failure isolation -/

/-- The accumulated video list of a channel collection is exactly the
channel-wise concatenation of the successful fetches: a failing channel
contributes `[]` and aborts nothing. -/
theorem collect_channel_videos_eq (fetch : String → Except PyErr (List VideoMetadata)) :
    ∀ chans : List SourceChannelInfo,
      (collect_channel_videos fetch chans).1 =
        (chans.map (fun c =>
          match fetch c.youtube_channel_id with
          | Except.ok vids => vids
          | Except.error _ => [])).join := by
  intro chans
  induction chans with
  | nil => rfl
  | cons c rest ih =>
    rw [collect_channel_videos]
    cases h : fetch c.youtube_channel_id <;> simp [h, ih]

/-- With an echoing store and a post-filter list of at most one batch, the
batch loop returns exactly the channel-bearing filtered videos. -/
theorem batch_go_single_ok
    (pv : Nat → List VideoMetadata → Except PyErr (List VideoMetadata))
    (hpv : ∀ i b, pv i b = Except.ok b) (vs : List VideoMetadata) (fuel : Nat)
    (hne : vs.isEmpty = false) (hlen : vs.length ≤ batch_size) :
    (process_videos_batch_go pv (fuel + 1 + 1) vs 0 [] {}).processed = vs := by
  rw [process_videos_batch_go]
  simp only [hne, Bool.false_eq_true, if_false]
  rw [if_neg (by decide)]
  have h1 : (vs.take batch_size).filter
      (fun v => !(List.contains ([] : List String) v.youtube_video_id)) = vs := by
    rw [List.take_all_of_le hlen]
    simp
  rw [h1]
  simp only [hne, Bool.false_eq_true, if_false]
  rw [hpv]
  dsimp only
  rw [List.drop_eq_nil_of_le hlen]
  rw [process_videos_batch_go]
  simp

theorem batch_echo_single (pv : Nat → List VideoMetadata → Except PyErr (List VideoMetadata))
    (hpv : ∀ i b, pv i b = Except.ok b) (videos : List VideoMetadata)
    (hlen : (videos.filter (fun v => v.channel_id != "")).length ≤ batch_size) :
    (process_videos_batch pv videos).processed =
      videos.filter (fun v => v.channel_id != "") := by
  simp only [process_videos_batch]
  by_cases hne : (videos.filter (fun v => v.channel_id != "")).isEmpty = true
  · have h0 : videos.filter (fun v => v.channel_id != "") = [] := by
      simpa [List.isEmpty_iff] using hne
    rw [h0]
    rfl
  · have hfuel : batch_fuel (videos.filter (fun v => v.channel_id != "")) =
        ((videos.filter (fun v => v.channel_id != "")).length * 4) + 1 + 1 +
          ((videos.filter (fun v => v.channel_id != "")).length * 0 + 2) := by
      simp only [batch_fuel, max_retries]
      ring
    have hfuel2 : batch_fuel (videos.filter (fun v => v.channel_id != "")) =
        ((videos.filter (fun v => v.channel_id != "")).length * 4 + 2) + 1 + 1 := by
      rw [hfuel]; ring
    rw [hfuel2]
    exact batch_go_single_ok pv hpv _ _ (Bool.not_eq_true _ ▸ hne) hlen

/-- With an echoing job store, the appended jobs equal exactly the inserted
jobs (the persisted source id trivially matches). -/
theorem pnv_echo_appends (env : MonitorEnv) (user : UserInfo) (source : SourceInfo)
    (nv : List VideoMetadata) (hecho : ∀ jb, env.insert_job jb = some jb)
    (hE : (nv.filter fun v => should_process_video v source).isEmpty = false) :
    (process_new_videos env user source nv).jobs_appended =
      (process_new_videos env user source nv).insert_job_calls := by
  unfold process_new_videos
  simp only [hE, if_false, Bool.false_eq_true]
  rw [hecho]
  simp [strOptId]

/-- C6: (i) the accumulated list of a channel collection is the concatenation
of the successful per-channel fetches — a raising channel loses only its own
videos; (ii) consequently, with a well-behaved store, any video of any
non-failing channel that passes the inclusion policy (has a channel id, and
the filtered set fits one batch) ends up in the source's processed set and in
the created job's `video_ids`. -/
theorem claim_C6 (menv : MonitorEnv) (fetch : String → Except PyErr (List VideoMetadata))
    (chans : List SourceChannelInfo) (user : UserInfo) (source : SourceInfo)
    (ch : SourceChannelInfo) (vs : List VideoMetadata) (v : VideoMetadata) :
    ((collect_channel_videos fetch chans).1 =
      (chans.map (fun c =>
        match fetch c.youtube_channel_id with
        | Except.ok vids => vids
        | Except.error _ => [])).join) ∧
    ((∀ i b, menv.pv i b = Except.ok b) → (∀ jb, menv.insert_job jb = some jb) →
      ch ∈ chans → fetch ch.youtube_channel_id = Except.ok vs → v ∈ vs →
      should_process_video v source = true → v.channel_id ≠ "" →
      ((collect_channel_videos fetch chans).1.filter
        (fun w => should_process_video w source)).length ≤ batch_size →
      ∃ nr, (process_channel_collection menv fetch chans user source).new_videos_result =
          some nr ∧ v ∈ nr.batch.processed ∧
        ∃ job vl, nr.jobs_appended = [job] ∧
          ("video_ids", PValue.strList vl) ∈ job.config.processing_options ∧
          v.youtube_video_id ∈ vl) := by
  refine ⟨collect_channel_videos_eq fetch chans, ?_⟩
  intro hpv hecho hch hvs hvmem hinc hvch hlen
  have hvacc : v ∈ (collect_channel_videos fetch chans).1 := by
    rw [collect_channel_videos_eq]
    refine List.mem_join.mpr ⟨vs, List.mem_map.mpr ⟨ch, hch, by rw [hvs]⟩, hvmem⟩
  have hchne : chans.isEmpty = false := by
    cases chans with
    | nil => exact absurd hch (List.not_mem_nil _)
    | cons a b => rfl
  have haccne : (collect_channel_videos fetch chans).1.isEmpty = false := by
    rcases hcc : (collect_channel_videos fetch chans).1 with _ | ⟨a, b⟩
    · rw [hcc] at hvacc; exact absurd hvacc (List.not_mem_nil _)
    · rfl
  have hres : (process_channel_collection menv fetch chans user source).new_videos_result =
      some (process_new_videos menv user source (collect_channel_videos fetch chans).1) := by
    unfold process_channel_collection
    simp [hchne, haccne]
  have hvfil : v ∈ (collect_channel_videos fetch chans).1.filter
      (fun w => should_process_video w source) :=
    List.mem_filter.mpr ⟨hvacc, hinc⟩
  have hEF : ((collect_channel_videos fetch chans).1.filter
      (fun w => should_process_video w source)).isEmpty = false := by
    rcases hcc : (collect_channel_videos fetch chans).1.filter
        (fun w => should_process_video w source) with _ | ⟨a, b⟩
    · rw [hcc] at hvfil; exact absurd hvfil (List.not_mem_nil _)
    · rfl
  have hv2 : v ∈ ((collect_channel_videos fetch chans).1.filter
      (fun w => should_process_video w source)).filter
        (fun w => w.channel_id != "") :=
    List.mem_filter.mpr ⟨hvfil, by simpa using hvch⟩
  have hlen2 : (((collect_channel_videos fetch chans).1.filter
      (fun w => should_process_video w source)).filter
        (fun w => w.channel_id != "")).length ≤ batch_size :=
    le_trans (List.length_filter_le _ _) hlen
  have hbatchproc : (process_videos_batch menv.pv
      ((collect_channel_videos fetch chans).1.filter
        (fun w => should_process_video w source))).processed =
      ((collect_channel_videos fetch chans).1.filter
        (fun w => should_process_video w source)).filter
          (fun w => w.channel_id != "") :=
    batch_echo_single menv.pv hpv _ hlen2
  obtain ⟨hfil, hbatch, hbulk, hjob⟩ :=
    pnv_stable_fields menv user source (collect_channel_videos fetch chans).1 hEF
  have happend := pnv_echo_appends menv user source
    (collect_channel_videos fetch chans).1 hecho hEF
  refine ⟨process_new_videos menv user source (collect_channel_videos fetch chans).1,
    hres, ?_, ?_⟩
  · rw [hbatch, hbatchproc]; exact hv2
  · rw [happend, hjob]
    refine ⟨_, _, rfl, List.mem_cons_self _ _, ?_⟩
    rw [hbatchproc]
    exact List.mem_map.mpr ⟨v, hv2, rfl⟩

/-- Witness for C6 (the spec's P7 scenario): three channels where fetching
`c2` raises; channel `c3`'s video still reaches the processed set and the
job's `video_ids`. -/
theorem claim_C6_witness :
    ∃ nr, (process_channel_collection env_ok fetch3 chans3 user0
        source0).new_videos_result = some nr ∧ video2 ∈ nr.batch.processed ∧
      ∃ job vl, nr.jobs_appended = [job] ∧
        ("video_ids", PValue.strList vl) ∈ job.config.processing_options ∧
        video2.youtube_video_id ∈ vl := by
  exact (claim_C6 env_ok fetch3 chans3 user0 source0 ⟨"s1", "c3"⟩ [video2] video2).2
    (fun i b => rfl) (fun jb => rfl) (by decide) (by rfl)
    (List.mem_singleton.mpr rfl) (by decide) (by decide) (by decide)

end Tubextend
